import Mathlib

/-!
Verification development for an Outlook MCP server (`outlook_mcp_server.py`).

The development shallowly embeds the server's data model and the operations the
specification talks about:

* raw backend mail items (COM attribute access modelled by `Option` fields,
  where `none` means the attribute is missing / raises on access),
* `format_email` (item formatter, `Except` models exception propagation),
* conversation grouping and per-thread sorting (three distinct sort keys
  appear in the source: `get_item_datetime_for_sorting`,
  `get_item_datetime`, and the mood-estimator's inline lambda),
* the thread classification engine of `get_actionable_emails`,
* the metrics pipeline and load-score formula of
  `inbox_load_and_mood_estimator`,
* the session email cache and the cache-addressed tools, and
* every MCP tool's validation / error-path behaviour, with backend
  interactions abstracted into explicit environment values.

Timestamps are modelled as seconds (`Nat`); `datetime.min` becomes the
sentinel `0`.  Python string `.lower()` is modelled by an ASCII `charLower`
map and `x in y` by `strContains`; both operate on the character list of a
`String` so that concrete instances evaluate in the kernel.
-/

namespace OutlookMCP

/-- ASCII lower-casing of one character (model of Python `str.lower` on the
ASCII strings occurring in the program). -/
def charLower (c : Char) : Char :=
  if c.toNat ≥ 65 ∧ c.toNat ≤ 90 then Char.ofNat (c.toNat + 32) else c

/-- Model of Python `s.lower()`. -/
def strLower (s : String) : String := ⟨s.data.map charLower⟩

/-- Model of Python `needle in hay` (substring containment). -/
def strContains (hay needle : String) : Bool :=
  hay.data.tails.any (fun t => needle.data.isPrefixOf t)

/-- Model of Python `s.startswith(p)`, used to state the error-string
contracts. -/
def strStartsWith (s p : String) : Bool :=
  p.data.isPrefixOf s.data

/-- Model of Python `s.strip()`. -/
def strTrim (s : String) : String :=
  ⟨((s.data.dropWhile Char.isWhitespace).reverse.dropWhile Char.isWhitespace).reverse⟩

/-- Model of Python `s.split(c)[0]`: the part of `s` before the first
occurrence of `c`. -/
def beforeChar (s : String) (c : Char) : String := ⟨s.data.takeWhile (· ≠ c)⟩

/-- A raw Outlook COM item as the server sees it.  Each field is an `Option`:
`none` models an attribute that is absent (so that plain access raises and
`hasattr`/`getattr`-with-default take their fallback branch).  Timestamps are
seconds.  `parentIsSentFolder` models the `Parent.EntryID` comparison against
the Sent Items folder performed inside `format_email`'s inner `try` block:
`none` means that comparison raises. -/
structure RawItem where
  entryID : Option String
  conversationID : Option String
  subject : Option String
  senderName : Option String
  senderEmailAddress : Option String
  receivedTime : Option Nat
  sentOn : Option Nat
  recipients : Option (List (String × Option String))
  body : Option String
  attachmentsCount : Option Nat
  unRead : Option Bool
  importance : Option Nat
  categories : Option String
  flagStatus : Option Nat
  parentIsSentFolder : Option Bool
deriving DecidableEq

/-- The structured dictionary produced by `format_email` (source lines
94-136).  The source renders `received_time`/`sent_time` with `strftime`; the
model keeps the underlying timestamp. -/
structure EmailData where
  id : String
  conversation_id : Option String
  subject : String
  sender : String
  sender_email : String
  received_time : Option Nat
  sent_time : Option Nat
  is_sent_item : Bool
  recipients : List String
  body : String
  has_attachments : Bool
  attachment_count : Nat
  unread : Bool
  importance : Nat
  categories : String
  flagged : Nat
deriving DecidableEq

/-- Access to a required attribute: raises (here: `Except.error`, carrying the
message that `format_email`'s handler re-raises) when the attribute is
missing. -/
def requireField {α : Type} (fieldName : String) : Option α → Except String α
  | some a => Except.ok a
  | none => Except.error ("Failed to format email: " ++ fieldName)

/-- One recipient display string: `Name <Address>` when the address is
readable, else just `Name` (source lines 98-105). -/
def formatRecipient (r : String × Option String) : String :=
  match r.2 with
  | some addr => r.1 ++ " <" ++ addr ++ ">"
  | none => r.1

/-- Embedding of `format_email` (source lines 94-136).  Fields are read in
the source's evaluation order: the recipients collection first, then the
guarded sent-item check, then the dictionary values.  Note that
`has_attachments` reads `Attachments.Count` WITHOUT a `hasattr` guard (line
127) while `attachment_count` on the very next line is guarded; the model
reproduces this faithfully. -/
def format_email (item : RawItem) : Except String EmailData := do
  let recips ← requireField "Recipients" item.recipients
  let recipients := recips.map formatRecipient
  let is_sent_item := item.parentIsSentFolder.getD false
  let id ← requireField "EntryID" item.entryID
  let subject ← requireField "Subject" item.subject
  let sender ← requireField "SenderName" item.senderName
  let sender_email ← requireField "SenderEmailAddress" item.senderEmailAddress
  let body ← requireField "Body" item.body
  let attachCount ← requireField "Attachments" item.attachmentsCount
  Except.ok
    { id := id
      conversation_id := item.conversationID
      subject := subject
      sender := sender
      sender_email := sender_email
      received_time := item.receivedTime
      sent_time := item.sentOn
      is_sent_item := is_sent_item
      recipients := recipients
      body := body
      has_attachments := attachCount > 0
      attachment_count := if item.attachmentsCount.isSome then attachCount else 0
      unread := item.unRead.getD false
      importance := item.importance.getD 1
      categories := item.categories.getD ""
      flagged := item.flagStatus.getD 0 }

/-- Sort key of `get_actionable_emails` (source lines 790-797): `SentOn` when
it is a valid datetime, else `ReceivedTime`, else `datetime.min` (sentinel
`0`).  This coincides with the specification's "effective timestamp". -/
def get_item_datetime_for_sorting (item : RawItem) : Nat :=
  match item.sentOn with
  | some t => t
  | none =>
    match item.receivedTime with
    | some t => t
    | none => 0

/-- Sort key of `generate_morning_briefing` (source lines 662-664):
`ReceivedTime or SentOn`, i.e. received time FIRST, else sent time, else
`datetime.min`. -/
def get_item_datetime (item : RawItem) : Nat :=
  match item.receivedTime with
  | some t => t
  | none => item.sentOn.getD 0

/-- Sort key of `inbox_load_and_mood_estimator`'s inline lambda (source line
963): `ReceivedTime` when present, else `datetime.min`; `SentOn` is not
consulted at all. -/
def moodSortKey (item : RawItem) : Nat := item.receivedTime.getD 0

/-- The ordering induced by a sort key. -/
def keyRel (key : RawItem → Nat) : RawItem → RawItem → Prop :=
  fun a b => key a ≤ key b

instance (key : RawItem → Nat) : DecidableRel (keyRel key) :=
  fun _ _ => Nat.decLe _ _

instance (key : RawItem → Nat) : IsTotal RawItem (keyRel key) :=
  ⟨fun _ _ => Nat.le_total _ _⟩

instance (key : RawItem → Nat) : IsTrans RawItem (keyRel key) :=
  ⟨fun _ _ _ => Nat.le_trans⟩

/-- Model of `thread.sort(key=...)`: a key-sorted permutation of the thread
(Python's Timsort modelled by insertion sort; the spec records the tie-break
as an acknowledged ambiguity, and no claim depends on it). -/
def sortThread (key : RawItem → Nat) (l : List RawItem) : List RawItem :=
  List.insertionSort (keyRel key) l

/-- One step of conversation grouping: append the item to its conversation's
bucket, creating the bucket at the end on first sight (Python dict insertion
order). -/
def addToConversation (convs : List (String × List RawItem)) (cid : String)
    (item : RawItem) : List (String × List RawItem) :=
  if convs.any (fun p => p.1 == cid) then
    convs.map (fun p => if p.1 == cid then (p.1, p.2 ++ [item]) else p)
  else convs ++ [(cid, [item])]

/-- Conversation grouping (source lines 777-787 and the identical loops in
the other two analysis tools): items whose `ConversationID` cannot be read
are skipped with a logged warning. -/
def groupConversations (items : List RawItem) : List (String × List RawItem) :=
  items.foldl
    (fun convs item =>
      match item.conversationID with
      | none => convs
      | some cid => addToConversation convs cid item)
    []

/-- The fixed bilingual urgent-keyword list of `get_actionable_emails`
(source lines 810-815).  Note that the final entry `"NB"` is upper-case while
every subject it is compared against has been lower-cased. -/
def URGENT_KEYWORDS : List String :=
  ["urgent", "action required",
   "dringend", "aksie vereis", "sgm", "sperdatum", "krities", "belangrik",
   "spoedig", "gou", "NB"]

/-- The (longer) urgent-keyword list of `inbox_load_and_mood_estimator`
(source lines 936-941). -/
def MOOD_URGENT_KEYWORDS : List String :=
  ["urgent", "action required", "asap", "deadline", "critical",
   "dringend", "aksie vereis", "sgm", "sperdatum", "krities", "belangrik",
   "spoedig", "gou", "NB"]

/-- Model of `manager_name and manager_name.lower() in sender_name.lower()`:
the manager name must be present and truthy (non-empty), and its lower-casing
a substring of the lower-cased sender display name. -/
def managerMatches (managerName : Option String) (senderName : String) : Bool :=
  match managerName with
  | none => false
  | some m => m ≠ "" && strContains (strLower senderName) (strLower m)

/-- The three actionable-email categories. -/
inductive Category
  | unreadPriority
  | awaitingReply
  | pendingFollowup
deriving DecidableEq

/-- The per-thread classification of `get_actionable_emails` (source lines
817-852), applied to the LAST item of a (sorted) thread.  Returns the
category the thread is filed under, with the reason string, or `none` when
the thread matches no rule.  The control structure mirrors the source's
`if ... continue` chain:

* rule 1 (unread priority) fires when the last item is unread and its sender
  address differs from the user's; the reason is chosen manager-sender first,
  then `"vip"` in the categories, then the first urgent keyword found in the
  lower-cased subject, else the generic reason (the keyword search is
  performed up-front exactly as at source line 826);
* rule 2 (awaiting reply) fires when the last item is from someone else and
  its body contains `?`;
* rule 3 (pending follow-up) fires when the last item is the user's own,
  older than two days, with `?` in its body. -/
def classifyLast (myEmail : String) (managerName : Option String) (now : Nat)
    (e : RawItem) : Option (Category × String) :=
  let addr := strLower (e.senderEmailAddress.getD "")
  if e.unRead.getD false = true ∧ addr ≠ myEmail then
    let subjLower := strLower (e.subject.getD "")
    let kwFound := URGENT_KEYWORDS.find? (fun kw => strContains subjLower kw)
    let reason :=
      if managerMatches managerName (e.senderName.getD "") then
        "Unread message from your manager"
      else if strContains (strLower (e.categories.getD "")) "vip" then
        "Unread message from a VIP"
      else
        match kwFound with
        | some kw => "Unread message with \x27" ++ kw ++ "\x27 in the subject"
        | none => "Unread message"
    some (Category.unreadPriority, reason)
  else if addr ≠ myEmail then
    if strContains (e.body.getD "") "?" then
      some (Category.awaitingReply,
        "You\x27ve read this, but the last message from them asks a question.")
    else none
  else
    let key := get_item_datetime_for_sorting e
    if key + 2 * 86400 < now ∧ strContains (e.body.getD "") "?" then
      let daysAgo := (now - key) / 86400
      some (Category.pendingFollowup,
        "You sent this email with a question " ++ toString daysAgo ++
          " days ago and have not received a reply.")
    else none

/-- The three result buckets of `get_actionable_emails` (source lines
803-807); each entry is the thread's last item paired with the reason. -/
structure ActionResults where
  unread_priority : List (RawItem × String)
  awaiting_reply : List (RawItem × String)
  pending_followup : List (RawItem × String)
deriving DecidableEq

/-- The empty result buckets. -/
def ActionResults.empty : ActionResults := ⟨[], [], []⟩

/-- One iteration of the analysis loop (source lines 817-852): skip an empty
thread, otherwise classify its last item and append it to the single bucket
of the matching rule (the `continue` statements make the rules mutually
exclusive). -/
def analyzeStep (myEmail : String) (managerName : Option String) (now : Nat)
    (res : ActionResults) (thread : List RawItem) : ActionResults :=
  match thread.getLast? with
  | none => res
  | some last =>
    match classifyLast myEmail managerName now last with
    | some (Category.unreadPriority, r) =>
      { res with unread_priority := res.unread_priority ++ [(last, r)] }
    | some (Category.awaitingReply, r) =>
      { res with awaiting_reply := res.awaiting_reply ++ [(last, r)] }
    | some (Category.pendingFollowup, r) =>
      { res with pending_followup := res.pending_followup ++ [(last, r)] }
    | none => res

/-- The full analysis loop of `get_actionable_emails` over the grouped
conversations. -/
def analyzeThreads (myEmail : String) (managerName : Option String) (now : Nat)
    (convs : List (String × List RawItem)) : ActionResults :=
  convs.foldl (fun res p => analyzeStep myEmail managerName now res p.2)
    ActionResults.empty

/-- The unread-priority reason AS THE CLAIM STATES IT: the keyword rule is a
case-insensitive substring match, i.e. the lower-cased keyword is searched in
the lower-cased subject.  (This differs from the source, which searches the
verbatim keyword in the lower-cased subject, so the upper-case keyword `"NB"`
can never match.) -/
def claimedUnreadReason (managerName : Option String) (e : RawItem) : String :=
  if managerMatches managerName (e.senderName.getD "") then
    "Unread message from your manager"
  else if strContains (strLower (e.categories.getD "")) "vip" then
    "Unread message from a VIP"
  else
    match URGENT_KEYWORDS.find?
        (fun kw => strContains (strLower (e.subject.getD "")) (strLower kw)) with
    | some kw => "Unread message with \x27" ++ kw ++ "\x27 in the subject"
    | none => "Unread message"

/-- The unread-priority reason as the source actually computes it, stated
declaratively: manager-sender first, then `"vip"` in the categories, then the
first keyword of the fixed list that occurs VERBATIM in the lower-cased
subject (so the upper-case keyword `"NB"` never matches), else the generic
reason. -/
def amendedUnreadReason (managerName : Option String) (e : RawItem) : String :=
  if managerMatches managerName (e.senderName.getD "") then
    "Unread message from your manager"
  else if strContains (strLower (e.categories.getD "")) "vip" then
    "Unread message from a VIP"
  else
    match URGENT_KEYWORDS.find?
        (fun kw => strContains (strLower (e.subject.getD "")) kw) with
    | some kw => "Unread message with \x27" ++ kw ++ "\x27 in the subject"
    | none => "Unread message"

/-- Mailbox-wide counters of `inbox_load_and_mood_estimator` (source lines
943-946). -/
structure MoodMetrics where
  unread_urgent_count : Nat
  flagged_threads_count : Nat
  total_response_delay_seconds : Nat
  replied_to_count : Nat
deriving DecidableEq

/-- The unread-urgent test of the mood estimator (source lines 969-972):
last item unread, from someone else, with some keyword of the mood list in
the lower-cased subject. -/
def unreadUrgentFlag (myEmail : String) (e : RawItem) : Bool :=
  (e.unRead.getD false &&
    strLower (e.senderEmailAddress.getD "") != myEmail) &&
  MOOD_URGENT_KEYWORDS.any (fun kw => strContains (strLower (e.subject.getD "")) kw)

/-- The flagged-thread test (source line 975): `FlagStatus == 2`
(`olFlagged`). -/
def flaggedFlag (e : RawItem) : Bool := e.flagStatus.getD 0 == 2

/-- The inner scan of the response-delay loop (source lines 987-998): find
the first later item that has a valid `SentOn`, was sent by the user, and is
strictly later than the incoming item's received time; return the gap in
seconds. -/
def findReply (myEmail : String) (curTime : Nat) : List RawItem → Option Nat
  | [] => none
  | n :: rest =>
    match n.sentOn with
    | none => findReply myEmail curTime rest
    | some nt =>
      if strLower (n.senderEmailAddress.getD "") = myEmail ∧ curTime < nt then
        some (nt - curTime)
      else findReply myEmail curTime rest

/-- The outer response-delay scan over a (sorted) thread (source lines
979-998): every incoming item with a readable received time contributes the
gap to its first matching reply; items without a reply contribute nothing.
Returns (total seconds, matched-pair count). -/
def responseDelays (myEmail : String) : List RawItem → Nat × Nat
  | [] => (0, 0)
  | cur :: rest =>
    let acc := responseDelays myEmail rest
    match cur.receivedTime with
    | none => acc
    | some ct =>
      if strLower (cur.senderEmailAddress.getD "") ≠ myEmail then
        match findReply myEmail ct rest with
        | some d => (acc.1 + d, acc.2 + 1)
        | none => acc
      else acc

/-- Metric accumulation for one conversation (source lines 959-998): sort the
thread by `moodSortKey`, test its last item for the unread-urgent and flagged
counters, and accumulate the response delays. -/
def moodThreadStep (myEmail : String) (m : MoodMetrics)
    (thread0 : List RawItem) : MoodMetrics :=
  match thread0 with
  | [] => m
  | _ =>
    let thread := sortThread moodSortKey thread0
    match thread.getLast? with
    | none => m
    | some last =>
      let d := responseDelays myEmail thread
      { unread_urgent_count :=
          m.unread_urgent_count + (if unreadUrgentFlag myEmail last then 1 else 0)
        flagged_threads_count :=
          m.flagged_threads_count + (if flaggedFlag last then 1 else 0)
        total_response_delay_seconds := m.total_response_delay_seconds + d.1
        replied_to_count := m.replied_to_count + d.2 }

/-- The whole metrics pipeline of `inbox_load_and_mood_estimator`: group the
scanned items into conversations, then accumulate the per-thread metrics. -/
def computeMoodMetrics (myEmail : String) (items : List RawItem) : MoodMetrics :=
  (groupConversations items).foldl (fun m p => moodThreadStep myEmail m p.2)
    ⟨0, 0, 0, 0⟩

/-- Average response delay in hours (source line 1001): total seconds /
count / 3600 when at least one reply was matched, else 0. -/
def avg_response_delay_hours (m : MoodMetrics) : ℚ :=
  if m.replied_to_count > 0 then
    (m.total_response_delay_seconds : ℚ) / m.replied_to_count / 3600
  else 0

/-- Rounding to two decimals (Python `round(x, 2)`; ties, which the claims do
not touch, round by `round`). -/
def round2 (q : ℚ) : ℚ := (round (q * 100) : ℤ) / 100

/-- The load-score computation exactly as the source performs it (lines
1005-1013): three capped contributions added one after the other to an
accumulator starting at 0.0, then capped at 1.0 and rounded to two
decimals. -/
def load_score_of (m : MoodMetrics) : ℚ :=
  let s0 : ℚ := 0
  let s1 := s0 + min ((m.unread_urgent_count : ℚ) * (15 / 100)) (1 / 2)
  let s2 := s1 + min ((m.flagged_threads_count : ℚ) * (5 / 100)) (3 / 10)
  let s3 := s2 + min (avg_response_delay_hours m / 24 * (1 / 10)) (1 / 5)
  round2 (min s3 1)

/-- The load-score formula as the claim states it, as a function of the three
inputs. -/
def claimLoadScore (u f : Nat) (avg : ℚ) : ℚ :=
  round2 (min
    (min ((u : ℚ) * (15 / 100)) (1 / 2) +
     min ((f : ℚ) * (5 / 100)) (3 / 10) +
     min (avg / 24 * (1 / 10)) (1 / 5)) 1)

/-- Rendering of an optional timestamp in an f-string (the source interpolates
the `strftime` result or Python `None`; the model renders the timestamp's
seconds value, abstracting the date format). -/
def renderOptTime : Option Nat → String
  | some t => toString t
  | none => "None"

/-- Minimal JSON string escaping (model of `json.dumps` on the strings
occurring here; control characters other than newline do not occur). -/
def jsonEscapeChar (c : Char) : String :=
  if c = Char.ofNat 34 then "\\\"" else
  if c = Char.ofNat 92 then "\\\\" else
  if c = Char.ofNat 10 then "\\n" else String.singleton c

/-- A JSON string literal. -/
def jsonStr (s : String) : String :=
  "\"" ++ String.join (s.data.map jsonEscapeChar) ++ "\""

/-- Decimal rendering of a rational that is an integer multiple of 1/100
(the values serialized by the mood estimator are two-decimal roundings);
trailing zeros are stripped as Python float `repr` does. -/
def renderRat2 (q : ℚ) : String :=
  let n := (round (q * 100) : ℤ).toNat
  let ip := n / 100
  let fr := n % 100
  if fr = 0 then toString ip ++ ".0"
  else if fr % 10 = 0 then toString ip ++ "." ++ toString (fr / 10)
  else toString ip ++ "." ++ (if fr < 10 then "0" else "") ++ toString fr

/-- The session email cache: ordinal → formatted email (the module-global
`email_cache` dict). -/
abbrev Cache := List (Nat × EmailData)

/-- Model of `email_cache[n]` lookup / `n in email_cache`. -/
def cacheLookup (c : Cache) (n : Nat) : Option EmailData :=
  (c.find? (fun p => p.1 == n)).map (fun p => p.2)

/-- Model of `del email_cache[n]`. -/
def cacheRemove (c : Cache) (n : Nat) : Cache :=
  c.filter (fun p => p.1 ≠ n)

/-- Embedding of `clear_email_cache` (source lines 187-190): replaces the
cache, whatever it held, with the empty dict. -/
def clear_email_cache (_ : Cache) : Cache := []

/-- Backend environment of `get_email_by_number`'s `try` block: an exception
somewhere in it, a falsy `GetItemFromID` result, or a successful fetch
carrying the attachment file names read from the live item. -/
inductive GetEnv
  | raise (m : String)
  | itemMissing
  | ok (attachmentNames : List String)
deriving DecidableEq

/-- The success rendering of `get_email_by_number` (source lines 567-592). -/
def get_email_by_number_ok_output (n : Nat) (d : EmailData)
    (attachmentNames : List String) : String :=
  "Email #" ++ toString n ++ " Details:\n\n" ++
  "Subject: " ++ d.subject ++ "\n" ++
  (if d.is_sent_item then
    "To: " ++ String.intercalate ", " d.recipients ++ "\n" ++
    "Sent: " ++ renderOptTime d.sent_time ++ "\n"
   else
    "From: " ++ d.sender ++ " <" ++ d.sender_email ++ ">\n" ++
    "Received: " ++ renderOptTime d.received_time ++ "\n" ++
    "Recipients: " ++ String.intercalate ", " d.recipients ++ "\n") ++
  "Has Attachments: " ++ (if d.has_attachments then "Yes" else "No") ++ "\n" ++
  (if d.has_attachments then
    "Attachments:\n" ++
      String.join (attachmentNames.map (fun a => "  - " ++ a ++ "\n"))
   else "") ++
  "\nBody:\n" ++ d.body ++
  (if d.is_sent_item then "" else
    "\n\nTo reply to this email, use the reply_to_email_by_number tool with this email number.")

/-- Embedding of the tool `get_email_by_number` (source lines 538-595).  The
cache checks happen first inside the `try` block; only afterwards does the
backend get involved. -/
def get_email_by_number_tool (cache : Cache) (n : Nat) (env : GetEnv) : String :=
  if cache.isEmpty then
    "Error: No emails have been listed yet. Please use list_recent_emails, search_emails, or prioritize_inbox first."
  else
    match cacheLookup cache n with
    | none =>
      "Error: Email #" ++ toString n ++ " not found in the current listing. Please run a listing tool again."
    | some d =>
      match env with
      | GetEnv.raise m => "Error retrieving email details: " ++ m
      | GetEnv.itemMissing =>
        "Error: Email #" ++ toString n ++ " could not be retrieved from Outlook."
      | GetEnv.ok atts => get_email_by_number_ok_output n d atts

/-- Backend environment of `move_email_by_number`'s `try` block. -/
inductive MoveEnv
  | raise (m : String)
  | itemMissing
  | folderMissing
  | ok
deriving DecidableEq

/-- Result of a `move_email_by_number` invocation: the returned string, the
cache afterwards, and the trace of backend interactions performed (empty when
the pre-checks rejected the call before touching the backend). -/
structure MoveOutcome where
  result : String
  cache : Cache
  backendCalls : List String
deriving DecidableEq

/-- Embedding of the tool `move_email_by_number` (source lines 1086-1139).
Step 1's validation happens BEFORE the `try` block and before any backend
connection; a raise aborts at its point inside the `try` block, so the
trace recorded for `MoveEnv.raise` is the connection that necessarily
happened first. -/
def move_email_by_number_tool (cache : Cache) (n : Nat)
    (destination_folder_name : String) (env : MoveEnv) : MoveOutcome :=
  if cache.isEmpty then
    { result := "Error: No emails have been listed yet. Please use list_recent_emails or search_emails first."
      cache := cache, backendCalls := [] }
  else
    match cacheLookup cache n with
    | none =>
      { result := "Error: Email #" ++ toString n ++ " not found in the current listing."
        cache := cache, backendCalls := [] }
    | some d =>
      if destination_folder_name = "" then
        { result := "Error: You must provide a destination folder name."
          cache := cache, backendCalls := [] }
      else
        match env with
        | MoveEnv.raise m =>
          { result := "Error moving email: " ++ m
            cache := cache, backendCalls := ["connect"] }
        | MoveEnv.itemMissing =>
          { result := "Error: Email #" ++ toString n ++ " could no longer be found in Outlook. It may have been moved or deleted."
            cache := cache
            backendCalls := ["connect", "GetItemFromID", "get_folder_by_name"] }
        | MoveEnv.folderMissing =>
          { result := "Error: Destination folder \x27" ++ destination_folder_name ++ "\x27 could not be found. Use the list_folders tool to see available folders."
            cache := cache
            backendCalls := ["connect", "GetItemFromID", "get_folder_by_name"] }
        | MoveEnv.ok =>
          { result := "Success: Email #" ++ toString n ++ ", \x27" ++ d.subject ++ "\x27, has been moved to the \x27" ++ destination_folder_name ++ "\x27 folder."
            cache := cacheRemove cache n
            backendCalls := ["connect", "GetItemFromID", "get_folder_by_name", "Move"] }

/-- Backend environment of `reply_to_email_by_number`'s `try` block; `ok`
carries the sender fields read back from the live item. -/
inductive ReplyEnv
  | raise (m : String)
  | itemMissing
  | ok (senderName : String) (senderEmail : String)
deriving DecidableEq

/-- Embedding of the tool `reply_to_email_by_number` (source lines
1040-1084); everything, the cache checks included, sits inside the `try`
block. -/
def reply_to_email_by_number_tool (cache : Cache) (n : Nat) (_reply_text : String)
    (env : ReplyEnv) : String :=
  if cache.isEmpty then
    "Error: No emails have been listed yet. Please use list_recent_emails, search_emails, or prioritize_inbox first."
  else
    match cacheLookup cache n with
    | none => "Error: Email #" ++ toString n ++ " not found in the current listing."
    | some d =>
      if d.is_sent_item then
        "Error: Email #" ++ toString n ++ " is a sent item. You cannot reply to it."
      else
        match env with
        | ReplyEnv.raise m => "Error replying to email: " ++ m
        | ReplyEnv.itemMissing =>
          "Error: Email #" ++ toString n ++ " could not be retrieved from Outlook."
        | ReplyEnv.ok sn se => "Reply sent successfully to: " ++ sn ++ " <" ++ se ++ ">"

/-- Backend environment of `compose_email`. -/
inductive ComposeEnv
  | raise (m : String)
  | ok
deriving DecidableEq

/-- Embedding of the tool `compose_email` (source lines 1141-1177). -/
def compose_email_tool (recipient_email _subject _body : String)
    (_cc_email : Option String) (env : ComposeEnv) : String :=
  match env with
  | ComposeEnv.raise m => "Error sending email: " ++ m
  | ComposeEnv.ok => "Email sent successfully to: " ++ recipient_email

/-- Backend environment of `list_folders`; `ok` carries the rendered folder
tree enumerated from the backend. -/
inductive FoldersEnv
  | raise (m : String)
  | ok (tree : String)
deriving DecidableEq

/-- Embedding of the tool `list_folders` (source lines 344-376). -/
def list_folders_tool (env : FoldersEnv) : String :=
  match env with
  | FoldersEnv.raise m => "Error listing mail folders: " ++ m
  | FoldersEnv.ok tree => "Available mail folders:\n\n" ++ tree

/-- Backend environment of `count_unread_emails`; `folderFound` is the
`get_folder_by_name` outcome (consulted only when a folder name was given),
`count` the restricted item count. -/
inductive CountEnv
  | raise (m : String)
  | ok (folderFound : Bool) (count : Nat)
deriving DecidableEq

/-- Embedding of the tool `count_unread_emails` (source lines 502-536). -/
def count_unread_emails_tool (folder_name : Option String) (env : CountEnv) : String :=
  match env with
  | CountEnv.raise m => "Error counting unread emails: " ++ m
  | CountEnv.ok folderFound count =>
    match folder_name with
    | some name =>
      if ¬folderFound then "Error: Folder \x27" ++ name ++ "\x27 not found"
      else "You have " ++ toString count ++ " unread emails in your \x27" ++ name ++ "\x27."
    | none => "You have " ++ toString count ++ " unread emails in your Inbox."

/-- One numbered entry of a listing (source lines 420-430 / 484-494). -/
def renderListEntry (i : Nat) (e : EmailData) : String :=
  "Email #" ++ toString i ++ "\n" ++
  "Subject: " ++ e.subject ++ "\n" ++
  "From: " ++ e.sender ++ " <" ++ e.sender_email ++ ">\n" ++
  "Received: " ++ renderOptTime e.received_time ++ "\n" ++
  "Read Status: " ++ (if e.unread then "Unread" else "Read") ++ "\n" ++
  "Has Attachments: " ++ (if e.has_attachments then "Yes" else "No") ++ "\n\n"

/-- Cache population of a listing: ordinals assigned densely from 1 in list
order. -/
def enumerateCache (emails : List EmailData) : Cache :=
  emails.enum.map (fun p => (p.1 + 1, p.2))

/-- Backend environment of the two listing tools: an exception in the `try`
block, or the folder-lookup outcome together with the (already formatted,
internally fault-tolerant) emails returned by `get_emails_from_folder`. -/
inductive ListEnv
  | raise (m : String)
  | ok (folderFound : Bool) (emails : List EmailData)
deriving DecidableEq

/-- Folder display name: `'name'` or `Inbox` (source line 413). -/
def folderDisplay : Option String → String
  | some name => "\x27" ++ name ++ "\x27"
  | none => "Inbox"

/-- Embedding of the tool `list_recent_emails` (source lines 378-436);
returns the result string and the cache afterwards. -/
def list_recent_emails_tool (days : Int) (folder_name : Option String)
    (env : ListEnv) (cache0 : Cache) : String × Cache :=
  if ¬(1 ≤ days ∧ days ≤ 180) then
    ("Error: \x27days\x27 must be an integer between 1 and 180", cache0)
  else
    match env with
    | ListEnv.raise m => ("Error retrieving email titles: " ++ m, cache0)
    | ListEnv.ok folderFound emails =>
      if folder_name.isSome ∧ ¬folderFound then
        ("Error: Folder \x27" ++ folder_name.getD "" ++ "\x27 not found", cache0)
      else if emails.isEmpty then
        ("No emails found in " ++ folderDisplay folder_name ++ " from the last " ++
          toString days ++ " days.", clear_email_cache cache0)
      else
        ("Found " ++ toString emails.length ++ " emails in " ++
           folderDisplay folder_name ++ " from the last " ++ toString days ++
           " days:\n\n" ++
           String.join (emails.enum.map (fun p => renderListEntry (p.1 + 1) p.2)) ++
           "To view the full content of an email, use the get_email_by_number tool with the email number.",
         enumerateCache emails)

/-- Embedding of the tool `search_emails` (source lines 438-500). -/
def search_emails_tool (search_term : String) (days : Int)
    (folder_name : Option String) (env : ListEnv) (cache0 : Cache) :
    String × Cache :=
  if search_term = "" then ("Error: Please provide a search term", cache0)
  else if ¬(1 ≤ days ∧ days ≤ 180) then
    ("Error: \x27days\x27 must be an integer between 1 and 180", cache0)
  else
    match env with
    | ListEnv.raise m => ("Error searching emails: " ++ m, cache0)
    | ListEnv.ok folderFound emails =>
      if folder_name.isSome ∧ ¬folderFound then
        ("Error: Folder \x27" ++ folder_name.getD "" ++ "\x27 not found", cache0)
      else if emails.isEmpty then
        ("No emails matching \x27" ++ search_term ++ "\x27 found in " ++
          folderDisplay folder_name ++ " from the last " ++ toString days ++
          " days.", clear_email_cache cache0)
      else
        ("Found " ++ toString emails.length ++ " emails matching \x27" ++
           search_term ++ "\x27 in " ++ folderDisplay folder_name ++
           " from the last " ++ toString days ++ " days:\n\n" ++
           String.join (emails.enum.map (fun p => renderListEntry (p.1 + 1) p.2)) ++
           "To view the full content of an email, use the get_email_by_number tool with the email number.",
         enumerateCache emails)

/-- The per-email analysis record built by `prioritize_inbox` (source lines
315-332): number, sender, subject, a 500-character body snippet, received
date, importance label, manager flag. -/
def prioritizeEntryJson (i : Nat) (managerName : Option String)
    (e : EmailData) : String :=
  let isFromManager :=
    match managerName with
    | some m => m ≠ "" && strContains (strLower e.sender) (strLower m)
    | none => false
  "\x7b\n    \"email_number\": " ++ toString i ++
  ",\n    \"sender\": " ++ jsonStr e.sender ++
  ",\n    \"subject\": " ++ jsonStr e.subject ++
  ",\n    \"body_snippet\": " ++
    jsonStr (String.mk ((strTrim e.body).data.take 500) ++ "...") ++
  ",\n    \"received_time\": " ++
    (match e.received_time with
     | some t => jsonStr (toString t)
     | none => "null") ++
  ",\n    \"importance\": " ++ (if e.importance = 2 then "\"High\"" else "\"Normal\"") ++
  ",\n    \"is_from_manager\": " ++ (if isFromManager then "true" else "false") ++
  "\n  \x7d"

/-- The success payload of `prioritize_inbox`: `json.dumps(..., indent=2)` of
the entry list (serialization layout modelled; the field computations are the
source's). -/
def prioritize_ok_output (managerName : Option String)
    (emails : List EmailData) : String :=
  "[\n  " ++
  String.intercalate ",\n  "
    (emails.enum.map (fun p => prioritizeEntryJson (p.1 + 1) managerName p.2)) ++
  "\n]"

/-- Backend environment of `prioritize_inbox`. -/
inductive PrioritizeEnv
  | raise (m : String)
  | ok (managerName : Option String) (emails : List EmailData)
deriving DecidableEq

/-- Embedding of the tool `prioritize_inbox` (source lines 268-341); returns
the result string and the cache afterwards (cleared and repopulated with the
scanned emails on the non-empty path). -/
def prioritize_inbox_tool (days max_emails_to_scan : Int) (env : PrioritizeEnv)
    (cache0 : Cache) : String × Cache :=
  if ¬(1 ≤ days ∧ days ≤ 7) then
    ("Error: \x27days\x27 must be an integer between 1 and 7 for AI analysis.", cache0)
  else if ¬(5 ≤ max_emails_to_scan ∧ max_emails_to_scan ≤ 50) then
    ("Error: \x27max_emails_to_scan\x27 must be between 5 and 50.", cache0)
  else
    match env with
    | PrioritizeEnv.raise m => ("Error fetching emails for AI analysis: " ++ m, cache0)
    | PrioritizeEnv.ok managerName emails =>
      if emails.isEmpty then
        ("\x7b\"status\": \"success\", \"message\": \"No emails found in the Inbox from the last " ++
          toString days ++ " " ++ (if days = 1 then "day" else "days") ++ ".\"\x7d",
         cache0)
      else
        let toProcess := emails.take max_emails_to_scan.toNat
        (prioritize_ok_output managerName toProcess, enumerateCache toProcess)

/-- The JSON error payload of `generate_morning_briefing`'s exception handler
(source lines 725-731): `json.dumps` with two-space indent of
`{"status": "error", "message": ...}` — this string begins with a brace, not
with `"Error"`. -/
def briefingErrorJson (m : String) : String :=
  "\x7b\n  \"status\": \"error\",\n  \"message\": " ++
    jsonStr ("An error occurred while gathering briefing data: " ++ m) ++
  "\n\x7d"

/-- Backend environment of `generate_morning_briefing`.  The success payload
aggregates calendar and conversation data; no claim concerns its content, so
it is supplied by the environment, while the briefing's one claim-relevant
computation — per-thread ordering by `get_item_datetime` — is embedded
directly (see `get_item_datetime` and `sortThread`). -/
inductive BriefEnv
  | raise (m : String)
  | ok (myEmail : Option String) (payload : String)
deriving DecidableEq

/-- Embedding of the tool `generate_morning_briefing` (source lines 598-731),
its validation and error paths in full. -/
def generate_morning_briefing_tool (days_to_scan follow_up_days : Int)
    (env : BriefEnv) : String :=
  if ¬(1 ≤ days_to_scan ∧ days_to_scan ≤ 14) then
    "Error: \x27days_to_scan\x27 must be an integer between 1 and 14."
  else if follow_up_days < 1 then
    "Error: \x27follow_up_days\x27 must be a positive integer."
  else
    match env with
    | BriefEnv.raise m => briefingErrorJson m
    | BriefEnv.ok none _ =>
      "Error: Could not determine your email address. Cannot analyze conversations."
    | BriefEnv.ok (some _) payload => payload

/-- The suggested action of the mood estimator (source lines 1016-1024). -/
def mood_suggested_action (u f : Nat) (avg : ℚ) (totalConvs : Nat) : String :=
  if u > 0 then
    "You have " ++ toString u ++ " urgent and unread email" ++
      (if u ≠ 1 then "s" else "") ++ ". Focus on those first."
  else if f > 0 then
    "You have " ++ toString f ++ " flagged email" ++
      (if f ≠ 1 then "s" else "") ++ ". Review and act on them."
  else if avg > 12 then
    "Your average response time is " ++ toString (⌊avg⌋) ++
      " hours. Try to respond to recent emails promptly."
  else if totalConvs > 50 then
    "Consider archiving stale or less important threads to reduce clutter."
  else "Your inbox seems to be in good shape."

/-- The success payload of `inbox_load_and_mood_estimator` (source lines
1026-1035), `json.dumps(..., indent=2)`. -/
def mood_ok_output (m : MoodMetrics) (totalConvs : Nat) : String :=
  let avg := avg_response_delay_hours m
  "\x7b\n  \"load_score\": " ++ renderRat2 (load_score_of m) ++
  ",\n  \"unread_urgent_count\": " ++ toString m.unread_urgent_count ++
  ",\n  \"flagged_threads_count\": " ++ toString m.flagged_threads_count ++
  ",\n  \"average_response_delay_hours\": " ++ renderRat2 (round2 avg) ++
  ",\n  \"total_active_conversations\": " ++ toString totalConvs ++
  ",\n  \"suggested_action\": " ++
    jsonStr (mood_suggested_action m.unread_urgent_count m.flagged_threads_count
      avg totalConvs) ++
  "\n\x7d"

/-- Backend environment of `inbox_load_and_mood_estimator`: an exception, or
the resolved user address together with the scanned items. -/
inductive MoodEnv
  | raise (m : String)
  | ok (myEmail : Option String) (items : List RawItem)
deriving DecidableEq

/-- Embedding of the tool `inbox_load_and_mood_estimator` (source lines
900-1038). -/
def inbox_load_and_mood_estimator_tool (days_to_scan : Int) (env : MoodEnv) : String :=
  if ¬(1 ≤ days_to_scan ∧ days_to_scan ≤ 60) then
    "Error: \x27days_to_scan\x27 must be an integer between 1 and 60."
  else
    match env with
    | MoodEnv.raise m => "Error calculating inbox load: " ++ m
    | MoodEnv.ok none _ =>
      "Error: Could not determine your email address. Cannot estimate inbox load."
    | MoodEnv.ok (some my) items =>
      mood_ok_output (computeMoodMetrics my items) (groupConversations items).length

/-- The lines appended for one report entry of `get_actionable_emails`
(source lines 879-889). -/
def renderActionEmail (n : Nat) (d : EmailData) (reason : String) : List String :=
  ["Email #" ++ toString n, "Subject: " ++ d.subject] ++
  (if d.is_sent_item then
    ["To: " ++ String.intercalate ", "
        (d.recipients.map (fun r => strTrim (beforeChar r (Char.ofNat 60)))),
     "Sent: " ++ renderOptTime d.sent_time]
   else
    ["From: " ++ d.sender ++ " <" ++ d.sender_email ++ ">",
     "Received: " ++ renderOptTime d.received_time]) ++
  ["Reason: " ++ reason ++ "\n"]

/-- A category header line (source line 871). -/
def categoryHeader (title : String) (count : Nat) : String :=
  "\n--- CATEGORY: " ++ title ++ " (" ++ toString count ++ ") ---\n"

/-- The per-category formatting loop of `get_actionable_emails` (source lines
872-889), accumulator-passing so that a `format_email` exception leaves the
lines and cache entries written so far in place (the exception then escapes
to the tool's handler).  Returns (lines, cache, next number, raised
message?). -/
def processCategory (accLines : List String) (accCache : Cache) (n0 : Nat) :
    List (RawItem × String) → List String × Cache × Nat × Option String
  | [] => (accLines, accCache, n0, none)
  | (e, reason) :: rest =>
    match format_email e with
    | Except.error m => (accLines, accCache, n0, some m)
    | Except.ok d =>
      processCategory (accLines ++ renderActionEmail n0 d reason)
        (accCache ++ [(n0, d)]) (n0 + 1) rest

/-- The category loop (source lines 866-889): categories in the fixed order,
empty (truncated) categories skipped without a header, numbering carried
across categories. -/
def runCategories (accLines : List String) (accCache : Cache) (n : Nat) :
    List (List (RawItem × String) × String) → List String × Cache × Nat × Option String
  | [] => (accLines, accCache, n, none)
  | (items, title) :: rest =>
    if items.isEmpty then runCategories accLines accCache n rest
    else
      match processCategory (accLines ++ [categoryHeader title items.length])
          accCache n items with
      | (ls, c, n1, some m) => (ls, c, n1, some m)
      | (ls, c, n1, none) => runCategories ls c n1 rest

/-- The whole report/caching stage of `get_actionable_emails` (source lines
854-889): cache freshly cleared, numbering from 1, each category truncated to
`limit` entries, in the fixed order unread-priority, awaiting-reply,
pending-follow-up. -/
def runReport (limit : Nat) (res : ActionResults) :
    List String × Cache × Nat × Option String :=
  runCategories [] [] 1
    [(res.unread_priority.take limit, "UNREAD PRIORITY EMAILS"),
     (res.awaiting_reply.take limit, "AWAITING YOUR REPLY"),
     (res.pending_followup.take limit, "PENDING YOUR FOLLOW-UP")]

/-- `total_found` (source lines 865-870): the number of displayed entries. -/
def totalFound (limit : Nat) (res : ActionResults) : Nat :=
  (res.unread_priority.take limit).length + (res.awaiting_reply.take limit).length +
    (res.pending_followup.take limit).length

/-- The all-caught-up return (source line 892).  The source forgot the `f`
prefix on this f-string, so the braces are returned literally; the model
reproduces that faithfully. -/
def caughtUpMessage : String :=
  "Your inbox is all caught up! No specific actions seem to be required based on a scan of the last \x7bdays_to_scan\x7d days."

/-- Backend environment of `get_actionable_emails`: an exception, or the
resolved user address, manager name, current time and scanned items. -/
inductive ActionEnv
  | raise (m : String)
  | ok (myEmail : Option String) (managerName : Option String) (now : Nat)
      (items : List RawItem)
deriving DecidableEq

/-- Embedding of the tool `get_actionable_emails` (source lines 733-898):
validation, grouping, per-thread sorting by `get_item_datetime_for_sorting`,
classification, report building with cache population, and the exception
handler.  Returns the result string and the cache afterwards. -/
def get_actionable_emails_tool (days_to_scan limit_per_category : Int)
    (env : ActionEnv) (cache0 : Cache) : String × Cache :=
  if ¬(1 ≤ days_to_scan ∧ days_to_scan ≤ 60) then
    ("Error: \x27days_to_scan\x27 must be an integer between 1 and 60.", cache0)
  else if limit_per_category < 1 then
    ("Error: \x27limit_per_category\x27 must be a positive integer.", cache0)
  else
    match env with
    | ActionEnv.raise m => ("Error analyzing actionable emails: " ++ m, cache0)
    | ActionEnv.ok none _ _ _ =>
      ("Error: Could not determine your email address. Cannot analyze conversations.", cache0)
    | ActionEnv.ok (some my) managerName now items =>
      let convs := (groupConversations items).map
        (fun p => (p.1, sortThread get_item_datetime_for_sorting p.2))
      let res := analyzeThreads my managerName now convs
      let limit := limit_per_category.toNat
      match runReport limit res with
      | (_, c, _, some m) => ("Error analyzing actionable emails: " ++ m, c)
      | (ls, c, _, none) =>
        if totalFound limit res = 0 then (caughtUpMessage, c)
        else
          (String.intercalate "\n"
            (("Here is a summary of emails that need your attention, scanned from the last " ++
                toString days_to_scan ++ " days:\n") ::
              ls ++
              ["\nTo get more details, use \x27get_email_by_number <#>\x27 or \x27reply_to_email_by_number <#>, <reply_text>\x27."]),
           c)

/-- A raw item with every attribute present and innocuous values; concrete
test items below override individual fields. -/
def baseItem : RawItem :=
  { entryID := some "id-0"
    conversationID := some "conv-0"
    subject := some ""
    senderName := some ""
    senderEmailAddress := some ""
    receivedTime := none
    sentOn := none
    recipients := some []
    body := some ""
    attachmentsCount := some 0
    unRead := some false
    importance := some 1
    categories := some ""
    flagStatus := some 0
    parentIsSentFolder := some false }

/-- An unread external email whose subject is exactly the urgent keyword
`"NB"`. -/
def nbItem : RawItem :=
  { baseItem with
    subject := some "NB"
    senderName := some "Alice Smith"
    senderEmailAddress := some "alice@example.com"
    receivedTime := some 1000
    unRead := some true }

/-- The specification's scenario item: an unread external email with subject
`"URGENT: contract"` whose sender matches the resolved manager name. -/
def urgentManagerItem : RawItem :=
  { baseItem with
    subject := some "URGENT: contract"
    senderName := some "Alice Smith"
    senderEmailAddress := some "alice@example.com"
    receivedTime := some 1000
    unRead := some true }

/-- Sent at 10, delivered at 12. -/
def itemA : RawItem :=
  { baseItem with entryID := some "id-A", sentOn := some 10, receivedTime := some 12 }

/-- Sent at 1, delivered (after a delay) at 20. -/
def itemB : RawItem :=
  { baseItem with entryID := some "id-B", sentOn := some 1, receivedTime := some 20 }

/-- A raw item whose REQUIRED fields are all present but whose `Attachments`
attribute is inaccessible. -/
def attachMissingItem : RawItem :=
  { baseItem with attachmentsCount := none }

/-- A raw item with every OPTIONAL attribute absent (`ConversationID`,
timestamps, `UnRead`, `Importance`, `Categories`, `FlagStatus`, the sent-item
check) and the required ones present. -/
def optionalsMissingItem : RawItem :=
  { baseItem with
    conversationID := none
    receivedTime := none
    sentOn := none
    unRead := none
    importance := none
    categories := none
    flagStatus := none
    parentIsSentFolder := none }

/-- Classification results holding one unread-priority thread (used to
instantiate the report-building theorem). -/
def sampleRes : ActionResults :=
  { unread_priority := [(nbItem, "Unread message")]
    awaiting_reply := []
    pending_followup := [] }

/-- Characterization of the cache entries the report loop writes: ordinal
`n0 + i` maps to the formatted `i`-th displayed email (specification-side
closed form used to state and prove the report-building theorem). -/
def entriesOf (n0 : Nat) : List (RawItem × String) → Cache
  | [] => []
  | (e, _) :: rest =>
    match format_email e with
    | Except.ok d => (n0, d) :: entriesOf (n0 + 1) rest
    | Except.error _ => []

/-- Every listed item formats successfully. -/
def allOk (items : List (RawItem × String)) : Prop :=
  ∀ p ∈ items, ∃ d, format_email p.1 = Except.ok d

/-- The concatenation of the category item lists, in processing order. -/
def flatItems (cats : List (List (RawItem × String) × String)) :
    List (RawItem × String) :=
  (cats.map Prod.fst).flatten

end OutlookMCP

namespace OutlookMCP

theorem data_append (s t : String) : (s ++ t).data = s.data ++ t.data := by
  cases s; cases t; rfl

theorem isPrefixOf_self_append (p t : List Char) : p.isPrefixOf (p ++ t) = true := by
  rw [List.isPrefixOf_iff_prefix]
  exact List.prefix_append p t

theorem isPrefixOf_append_of (p a b : List Char) (h : p.isPrefixOf a = true) :
    p.isPrefixOf (a ++ b) = true := by
  rw [List.isPrefixOf_iff_prefix] at h ⊢
  exact h.trans (List.prefix_append a b)

theorem strStartsWith_append_left (a b p : String)
    (h : strStartsWith a p = true) : strStartsWith (a ++ b) p = true := by
  unfold strStartsWith at h ⊢
  rw [data_append]
  exact isPrefixOf_append_of _ _ _ h

/-- C1 counterexample: on an unread external email with subject `"NB"` the
code chooses the generic reason, while the claim's case-insensitive keyword
match demands the keyword reason, so the claim as stated is false at this
input. -/
theorem C1_keyword_match_counterexample :
    classifyLast "me@corp.com" none 0 nbItem =
      some (Category.unreadPriority, "Unread message") ∧
    claimedUnreadReason none nbItem =
      "Unread message with \x27NB\x27 in the subject" ∧
    classifyLast "me@corp.com" none 0 nbItem ≠
      some (Category.unreadPriority, claimedUnreadReason none nbItem) := by
  refine ⟨by decide, by decide, by decide⟩

/-- C1 (amended): every thread whose last item is unread and not sent by the
user is assigned to the unread-priority category, with its reason chosen by
first-match-wins precedence — manager-sender, then `"vip"` in the category
tags, then the first keyword of the fixed bilingual list occurring verbatim
in the lower-cased subject (case-insensitive for the lower-case keywords; the
upper-case keyword `"NB"` can never match), then the generic reason; in
particular a manager-sent unread item with an urgent-keyword subject gets the
manager reason. -/
theorem C1_unread_reason_precedence (myEmail : String)
    (managerName : Option String) (now : Nat) (e : RawItem)
    (hu : e.unRead.getD false = true)
    (ha : strLower (e.senderEmailAddress.getD "") ≠ myEmail) :
    classifyLast myEmail managerName now e =
      some (Category.unreadPriority, amendedUnreadReason managerName e) ∧
    (managerMatches managerName (e.senderName.getD "") = true →
      classifyLast myEmail managerName now e =
        some (Category.unreadPriority, "Unread message from your manager")) := by
  have h1 : classifyLast myEmail managerName now e =
      some (Category.unreadPriority, amendedUnreadReason managerName e) := by
    unfold classifyLast amendedUnreadReason
    rw [if_pos ⟨hu, ha⟩]
  refine ⟨h1, fun hm => ?_⟩
  rw [h1]
  unfold amendedUnreadReason
  rw [if_pos hm]

/-- Witness for the amended C1 at the specification's scenario: subject
`"URGENT: contract"`, sender matching the manager — the manager reason wins
over the keyword reason. -/
theorem C1_unread_reason_precedence_witness :
    classifyLast "me@corp.com" (some "Alice Smith") 0 urgentManagerItem =
      some (Category.unreadPriority, "Unread message from your manager") :=
  (C1_unread_reason_precedence "me@corp.com" (some "Alice Smith") 0
    urgentManagerItem (by decide) (by decide)).2 (by decide)

/-- C3 counterexample: `generate_morning_briefing` sorts threads by
`get_item_datetime` (received time first); the resulting sequence for two
plausible items is NOT non-decreasing in the effective timestamp
(`get_item_datetime_for_sorting`, sent time first), so the claim fails for
that tool. -/
theorem C3_effective_timestamp_counterexample :
    sortThread get_item_datetime [itemA, itemB] = [itemA, itemB] ∧
    get_item_datetime_for_sorting itemA = 10 ∧
    get_item_datetime_for_sorting itemB = 1 ∧
    ¬ List.Sorted (keyRel get_item_datetime_for_sorting)
        (sortThread get_item_datetime [itemA, itemB]) := by
  refine ⟨by decide, by decide, by decide, fun h => ?_⟩
  rw [(by decide : sortThread get_item_datetime [itemA, itemB] = [itemA, itemB])] at h
  exact absurd (List.rel_of_sorted_cons h itemB (List.mem_cons_self _ _)) (by decide)

/-- C3 (amended): each thread-based tool produces thread sequences
non-decreasing in ITS OWN sort key — `get_actionable_emails` in the effective
timestamp (sent time if present, else received time, else the sentinel),
`generate_morning_briefing` in received-else-sent-else-sentinel, and
`inbox_load_and_mood_estimator` in received-else-sentinel — but only the
first of these keys is the claim's effective timestamp. -/
theorem C3_thread_sort_keys :
    (∀ l, List.Sorted (keyRel get_item_datetime_for_sorting)
      (sortThread get_item_datetime_for_sorting l)) ∧
    (∀ l, List.Sorted (keyRel get_item_datetime)
      (sortThread get_item_datetime l)) ∧
    (∀ l, List.Sorted (keyRel moodSortKey) (sortThread moodSortKey l)) :=
  ⟨fun l => List.sorted_insertionSort _ l,
   fun l => List.sorted_insertionSort _ l,
   fun l => List.sorted_insertionSort _ l⟩

/-- C7: after a cache reset, `get_email_by_number` answers the not-found
error for EVERY ordinal and every backend state, regardless of what the cache
held before the reset; no stale ordinal can resolve to an item. -/
theorem C7_stale_ordinal_after_reset (prior : Cache) (n : Nat) (env : GetEnv) :
    get_email_by_number_tool (clear_email_cache prior) n env =
      "Error: No emails have been listed yet. Please use list_recent_emails, search_emails, or prioritize_inbox first." :=
  rfl

/-- C9 evidence: `format_email` RAISES when the optional `Attachments`
attribute is absent (the unguarded `mail_item.Attachments.Count` at source
line 127 defeats the guarded fallback on line 128), while every other
optional field genuinely falls back to its safe default. -/
theorem C9_attachments_required_failure :
    format_email attachMissingItem =
      Except.error "Failed to format email: Attachments" ∧
    format_email optionalsMissingItem =
      Except.ok
        { id := "id-0", conversation_id := none, subject := "", sender := ""
          sender_email := "", received_time := none, sent_time := none
          is_sent_item := false, recipients := [], body := ""
          has_attachments := false, attachment_count := 0, unread := false
          importance := 1, categories := "", flagged := 0 } := by
  exact ⟨rfl, rfl⟩

theorem mem_analyzeStep_bucket (my : String) (mgr : Option String) (now : Nat)
    (res : ActionResults) (thread : List RawItem) (e : RawItem) (r : String) :
    (((e, r) ∈ (analyzeStep my mgr now res thread).unread_priority →
        (e, r) ∈ res.unread_priority ∨
        classifyLast my mgr now e = some (Category.unreadPriority, r)) ∧
     ((e, r) ∈ (analyzeStep my mgr now res thread).awaiting_reply →
        (e, r) ∈ res.awaiting_reply ∨
        classifyLast my mgr now e = some (Category.awaitingReply, r)) ∧
     ((e, r) ∈ (analyzeStep my mgr now res thread).pending_followup →
        (e, r) ∈ res.pending_followup ∨
        classifyLast my mgr now e = some (Category.pendingFollowup, r))) := by
  unfold analyzeStep
  cases hl : thread.getLast? with
  | none => exact ⟨Or.inl, Or.inl, Or.inl⟩
  | some last =>
    dsimp only
    cases hc : classifyLast my mgr now last with
    | none => exact ⟨Or.inl, Or.inl, Or.inl⟩
    | some p =>
      obtain ⟨cat, rr⟩ := p
      cases cat <;> dsimp only <;>
        refine ⟨fun h => ?_, fun h => ?_, fun h => ?_⟩ <;>
        simp only [List.mem_append, List.mem_singleton, Prod.mk.injEq] at h <;>
        first
        | (rcases h with h | ⟨he, hr⟩
           · exact Or.inl h
           · subst he; subst hr; exact Or.inr hc)
        | exact Or.inl h

theorem mem_analyzeFold_bucket (my : String) (mgr : Option String) (now : Nat)
    (e : RawItem) (r : String) :
    ∀ (convs : List (String × List RawItem)) (acc : ActionResults),
    (((e, r) ∈ (convs.foldl (fun res p => analyzeStep my mgr now res p.2) acc).unread_priority →
        (e, r) ∈ acc.unread_priority ∨
        classifyLast my mgr now e = some (Category.unreadPriority, r)) ∧
     ((e, r) ∈ (convs.foldl (fun res p => analyzeStep my mgr now res p.2) acc).awaiting_reply →
        (e, r) ∈ acc.awaiting_reply ∨
        classifyLast my mgr now e = some (Category.awaitingReply, r)) ∧
     ((e, r) ∈ (convs.foldl (fun res p => analyzeStep my mgr now res p.2) acc).pending_followup →
        (e, r) ∈ acc.pending_followup ∨
        classifyLast my mgr now e = some (Category.pendingFollowup, r)))
  | [], acc => ⟨Or.inl, Or.inl, Or.inl⟩
  | p :: rest, acc => by
    have ih := mem_analyzeFold_bucket my mgr now e r rest (analyzeStep my mgr now acc p.2)
    have hs := mem_analyzeStep_bucket my mgr now acc p.2 e r
    simp only [List.foldl_cons]
    exact
      ⟨fun h => (ih.1 h).elim (fun h1 => hs.1 h1) Or.inr,
       fun h => (ih.2.1 h).elim (fun h1 => hs.2.1 h1) Or.inr,
       fun h => (ih.2.2 h).elim (fun h1 => hs.2.2 h1) Or.inr⟩

/-- C2: in any run of the analysis loop of `get_actionable_emails`, an email
filed under unread-priority never also appears (under any reason) in the
awaiting-reply or pending-follow-up buckets: the categories are mutually
exclusive per thread. -/
theorem C2_categories_mutually_exclusive (my : String) (mgr : Option String)
    (now : Nat) (convs : List (String × List RawItem)) (e : RawItem) (r : String)
    (h : (e, r) ∈ (analyzeThreads my mgr now convs).unread_priority) :
    (∀ r', (e, r') ∉ (analyzeThreads my mgr now convs).awaiting_reply) ∧
    (∀ r', (e, r') ∉ (analyzeThreads my mgr now convs).pending_followup) := by
  have hu := (mem_analyzeFold_bucket my mgr now e r convs ActionResults.empty).1 h
  rcases hu with hu | hu
  · exact absurd hu (List.not_mem_nil _)
  · constructor
    · intro r' h'
      have ha := (mem_analyzeFold_bucket my mgr now e r' convs ActionResults.empty).2.1 h'
      rcases ha with ha | ha
      · exact absurd ha (List.not_mem_nil _)
      · rw [hu] at ha
        simp at ha
    · intro r' h'
      have hp := (mem_analyzeFold_bucket my mgr now e r' convs ActionResults.empty).2.2 h'
      rcases hp with hp | hp
      · exact absurd hp (List.not_mem_nil _)
      · rw [hu] at hp
        simp at hp

/-- Witness for C2 at a concrete run: the unread-priority email of a
one-thread mailbox does not appear in the awaiting-reply bucket. -/
theorem C2_categories_mutually_exclusive_witness :
    (nbItem, "Unread message") ∉
      (analyzeThreads "me@corp.com" none 0 [("conv-0", [nbItem])]).awaiting_reply :=
  (C2_categories_mutually_exclusive "me@corp.com" none 0 [("conv-0", [nbItem])]
    nbItem "Unread message" (by decide)).1 "Unread message"

/-- C5: for every run of the mood-estimator pipeline, the load score the tool
computes equals exactly the claim's formula — capped contributions
`min(u*0.15, 0.5) + min(f*0.05, 0.3) + min(avg/24*0.1, 0.2)` — applied to
the pipeline's own unread-urgent count, flagged count and average response
delay, clamped to at most 1 and rounded to two decimals. -/
theorem C5_load_score_formula (my : String) (items : List RawItem) :
    load_score_of (computeMoodMetrics my items) =
      claimLoadScore (computeMoodMetrics my items).unread_urgent_count
        (computeMoodMetrics my items).flagged_threads_count
        (avg_response_delay_hours (computeMoodMetrics my items)) := by
  show round2 _ = round2 _
  rw [zero_add]

theorem roundMono {a b : ℚ} (h : a ≤ b) : round a ≤ round b := by
  rw [round_eq, round_eq]
  exact Int.floor_le_floor (by linarith)

theorem round2_mono {a b : ℚ} (h : a ≤ b) : round2 a ≤ round2 b := by
  unfold round2
  have h1 : round (a * 100) ≤ round (b * 100) := roundMono (by linarith)
  have h2 : ((round (a * 100) : ℤ) : ℚ) ≤ ((round (b * 100) : ℤ) : ℚ) :=
    Int.cast_le.mpr h1
  linarith

theorem round2_nonneg {a : ℚ} (h : 0 ≤ a) : 0 ≤ round2 a := by
  unfold round2
  have h1 : round (0 : ℚ) ≤ round (a * 100) := roundMono (by linarith)
  rw [round_zero] at h1
  have h2 : (0 : ℚ) ≤ ((round (a * 100) : ℤ) : ℚ) := by exact_mod_cast h1
  linarith

theorem round2_le_one {a : ℚ} (h : a ≤ 1) : round2 a ≤ 1 := by
  unfold round2
  have h1 : round (a * 100) ≤ round (100 : ℚ) := roundMono (by linarith)
  have h3 : round (100 : ℚ) = 100 := by
    rw [round_eq]; norm_num
  rw [h3] at h1
  have h2 : ((round (a * 100) : ℤ) : ℚ) ≤ 100 := by exact_mod_cast h1
  linarith

/-- C6: the load-score formula stays in `[0, 1]` for all non-negative inputs
and is monotonically non-decreasing in each of its three inputs with the
other two held fixed. -/
theorem C6_load_score_bounds_monotone :
    (∀ (u f : Nat) (a : ℚ), 0 ≤ a →
      0 ≤ claimLoadScore u f a ∧ claimLoadScore u f a ≤ 1) ∧
    (∀ (u u' f : Nat) (a : ℚ), u ≤ u' →
      claimLoadScore u f a ≤ claimLoadScore u' f a) ∧
    (∀ (u f f' : Nat) (a : ℚ), f ≤ f' →
      claimLoadScore u f a ≤ claimLoadScore u f' a) ∧
    (∀ (u f : Nat) (a a' : ℚ), a ≤ a' →
      claimLoadScore u f a ≤ claimLoadScore u f a') := by
  have hterm1 : ∀ u : Nat, (0 : ℚ) ≤ min ((u : ℚ) * (15 / 100)) (1 / 2) :=
    fun u => le_min (by positivity) (by norm_num)
  have hterm2 : ∀ f : Nat, (0 : ℚ) ≤ min ((f : ℚ) * (5 / 100)) (3 / 10) :=
    fun f => le_min (by positivity) (by norm_num)
  have hterm3 : ∀ a : ℚ, 0 ≤ a → (0 : ℚ) ≤ min (a / 24 * (1 / 10)) (1 / 5) :=
    fun a ha => le_min (by positivity) (by norm_num)
  refine ⟨fun u f a ha => ⟨?_, ?_⟩, fun u u' f a h => ?_, fun u f f' a h => ?_,
    fun u f a a' h => ?_⟩
  · exact round2_nonneg (le_min
      (by have := hterm1 u; have := hterm2 f; have := hterm3 a ha; linarith)
      (by norm_num))
  · exact round2_le_one (min_le_right _ _)
  · refine round2_mono (min_le_min (add_le_add (add_le_add ?_ le_rfl) le_rfl) le_rfl)
    exact min_le_min (by
      have : ((u : ℚ)) ≤ (u' : ℚ) := by exact_mod_cast h
      linarith) le_rfl
  · refine round2_mono (min_le_min (add_le_add (add_le_add le_rfl ?_) le_rfl) le_rfl)
    exact min_le_min (by
      have : ((f : ℚ)) ≤ (f' : ℚ) := by exact_mod_cast h
      linarith) le_rfl
  · refine round2_mono (min_le_min (add_le_add le_rfl ?_) le_rfl)
    exact min_le_min (by linarith) le_rfl

/-- Witness for C6 at concrete inputs: two urgent unread emails, three
flagged threads, a 12-hour average delay. -/
theorem C6_load_score_bounds_monotone_witness :
    0 ≤ claimLoadScore 2 3 12 ∧ claimLoadScore 2 3 12 ≤ 1 :=
  C6_load_score_bounds_monotone.1 2 3 12 (by norm_num)

/-- C8: whenever the requested ordinal is absent from the cache (in
particular on an empty cache), `move_email_by_number` returns a not-found
error string, performs no backend call whatsoever, and leaves the cache
unchanged. -/
theorem C8_move_not_found_no_mutation (cache : Cache) (n : Nat)
    (folder : String) (env : MoveEnv) (h : cacheLookup cache n = none) :
    (move_email_by_number_tool cache n folder env).backendCalls = [] ∧
    (move_email_by_number_tool cache n folder env).cache = cache ∧
    strStartsWith (move_email_by_number_tool cache n folder env).result
      "Error:" = true := by
  unfold move_email_by_number_tool
  cases hc : cache.isEmpty with
  | true =>
    simp only [hc, if_true]
    exact ⟨trivial, trivial, by decide⟩
  | false =>
    simp only [hc, Bool.false_eq_true, if_false, h]
    refine ⟨trivial, trivial, ?_⟩
    exact strStartsWith_append_left _ _ _
      (strStartsWith_append_left _ _ _ (by decide))

/-- Witness for C8 at the specification's scenario: moving ordinal 3 to
`"Archive"` on an empty cache. -/
theorem C8_move_not_found_no_mutation_witness :
    (move_email_by_number_tool [] 3 "Archive" MoveEnv.ok).backendCalls = [] ∧
    (move_email_by_number_tool [] 3 "Archive" MoveEnv.ok).cache = [] ∧
    strStartsWith (move_email_by_number_tool [] 3 "Archive" MoveEnv.ok).result
      "Error:" = true :=
  C8_move_not_found_no_mutation [] 3 "Archive" MoveEnv.ok (by decide)

/-- C4 counterexample: the exception path of `generate_morning_briefing`
returns a JSON object (beginning with a brace), not a string beginning with
`"Error:"`; and even the other exception handlers (here `prioritize_inbox`)
begin with `"Error "` rather than `"Error:"`. -/
theorem C4_error_prefix_counterexample :
    strStartsWith (generate_morning_briefing_tool 3 2 (BriefEnv.raise "boom"))
      "Error:" = false ∧
    generate_morning_briefing_tool 3 2 (BriefEnv.raise "boom") =
      briefingErrorJson "boom" ∧
    strStartsWith (prioritize_inbox_tool 3 10 (PrioritizeEnv.raise "boom") []).1
      "Error:" = false ∧
    strStartsWith (prioritize_inbox_tool 3 10 (PrioritizeEnv.raise "boom") []).1
      "Error" = true := by
  refine ⟨by decide, rfl, by decide, by decide⟩

/-- C4 (amended): every tool is a total function into strings, and every
error path returns a string beginning with `"Error"` — except the exception
handler of `generate_morning_briefing`, which returns the JSON error payload
(conjunct 7's middle disjunct).  Each conjunct reads: the result starts with
`"Error"`, or the invocation was on a non-error path (valid arguments and a
success-shaped backend environment), or — for the briefing only — the result
is the JSON error payload. -/
theorem C4_tool_error_paths :
    (∀ (days maxn : Int) (env : PrioritizeEnv) (c0 : Cache),
      strStartsWith (prioritize_inbox_tool days maxn env c0).1 "Error" = true ∨
      ((1 ≤ days ∧ days ≤ 7) ∧ (5 ≤ maxn ∧ maxn ≤ 50) ∧
        ∃ mgr emails, env = PrioritizeEnv.ok mgr emails)) ∧
    (∀ env : FoldersEnv,
      strStartsWith (list_folders_tool env) "Error" = true ∨
      ∃ tree, env = FoldersEnv.ok tree) ∧
    (∀ (days : Int) (fn : Option String) (env : ListEnv) (c0 : Cache),
      strStartsWith (list_recent_emails_tool days fn env c0).1 "Error" = true ∨
      ((1 ≤ days ∧ days ≤ 180) ∧
        ∃ ff emails, env = ListEnv.ok ff emails ∧ (fn.isSome = true → ff = true))) ∧
    (∀ (term : String) (days : Int) (fn : Option String) (env : ListEnv) (c0 : Cache),
      strStartsWith (search_emails_tool term days fn env c0).1 "Error" = true ∨
      (term ≠ "" ∧ (1 ≤ days ∧ days ≤ 180) ∧
        ∃ ff emails, env = ListEnv.ok ff emails ∧ (fn.isSome = true → ff = true))) ∧
    (∀ (fn : Option String) (env : CountEnv),
      strStartsWith (count_unread_emails_tool fn env) "Error" = true ∨
      ∃ ff cnt, env = CountEnv.ok ff cnt ∧ (fn.isSome = true → ff = true)) ∧
    (∀ (cache : Cache) (n : Nat) (env : GetEnv),
      strStartsWith (get_email_by_number_tool cache n env) "Error" = true ∨
      (cache.isEmpty = false ∧ ∃ d, cacheLookup cache n = some d ∧
        ∃ atts, env = GetEnv.ok atts)) ∧
    (∀ (d f : Int) (env : BriefEnv),
      strStartsWith (generate_morning_briefing_tool d f env) "Error" = true ∨
      (∃ m, env = BriefEnv.raise m ∧ (1 ≤ d ∧ d ≤ 14) ∧ 1 ≤ f ∧
        generate_morning_briefing_tool d f env = briefingErrorJson m) ∨
      ((1 ≤ d ∧ d ≤ 14) ∧ 1 ≤ f ∧
        ∃ my payload, env = BriefEnv.ok (some my) payload)) ∧
    (∀ (d l : Int) (env : ActionEnv) (c0 : Cache),
      strStartsWith (get_actionable_emails_tool d l env c0).1 "Error" = true ∨
      ((1 ≤ d ∧ d ≤ 60) ∧ 1 ≤ l ∧
        ∃ my mgr now items, env = ActionEnv.ok (some my) mgr now items ∧
          (runReport l.toNat (analyzeThreads my mgr now
            ((groupConversations items).map
              (fun p => (p.1, sortThread get_item_datetime_for_sorting p.2))))).2.2.2
            = none)) ∧
    (∀ (d : Int) (env : MoodEnv),
      strStartsWith (inbox_load_and_mood_estimator_tool d env) "Error" = true ∨
      ((1 ≤ d ∧ d ≤ 60) ∧ ∃ my items, env = MoodEnv.ok (some my) items)) ∧
    (∀ (cache : Cache) (n : Nat) (txt : String) (env : ReplyEnv),
      strStartsWith (reply_to_email_by_number_tool cache n txt env) "Error" = true ∨
      (cache.isEmpty = false ∧ ∃ d, cacheLookup cache n = some d ∧
        d.is_sent_item = false ∧ ∃ sn se, env = ReplyEnv.ok sn se)) ∧
    (∀ (cache : Cache) (n : Nat) (fol : String) (env : MoveEnv),
      strStartsWith (move_email_by_number_tool cache n fol env).result "Error" = true ∨
      (cache.isEmpty = false ∧ (∃ d, cacheLookup cache n = some d) ∧
        fol ≠ "" ∧ env = MoveEnv.ok)) ∧
    (∀ (r s b : String) (cc : Option String) (env : ComposeEnv),
      strStartsWith (compose_email_tool r s b cc env) "Error" = true ∨
      env = ComposeEnv.ok) := by
  refine ⟨?_, ?_, ?_, ?_, ?_, ?_, ?_, ?_, ?_, ?_, ?_, ?_⟩
  · -- prioritize_inbox
    intro days maxn env c0
    by_cases h1 : 1 ≤ days ∧ days ≤ 7
    · by_cases h2 : 5 ≤ maxn ∧ maxn ≤ 50
      · cases env with
        | raise m =>
          left
          have hres : (prioritize_inbox_tool days maxn (PrioritizeEnv.raise m) c0).1 =
              "Error fetching emails for AI analysis: " ++ m := by
            unfold prioritize_inbox_tool
            rw [if_neg (not_not_intro h1), if_neg (not_not_intro h2)]
          rw [hres]
          exact strStartsWith_append_left _ _ _ (by decide)
        | ok mgr emails => exact Or.inr ⟨h1, h2, mgr, emails, rfl⟩
      · left
        have hres : (prioritize_inbox_tool days maxn env c0).1 =
            "Error: \x27max_emails_to_scan\x27 must be between 5 and 50." := by
          unfold prioritize_inbox_tool
          rw [if_neg (not_not_intro h1), if_pos h2]
        rw [hres]; decide
    · left
      have hres : (prioritize_inbox_tool days maxn env c0).1 =
          "Error: \x27days\x27 must be an integer between 1 and 7 for AI analysis." := by
        unfold prioritize_inbox_tool
        rw [if_pos h1]
      rw [hres]; decide
  · -- list_folders
    intro env
    cases env with
    | raise m =>
      left
      exact strStartsWith_append_left _ _ _ (by decide)
    | ok tree => exact Or.inr ⟨tree, rfl⟩
  · -- list_recent_emails
    intro days fn env c0
    by_cases h1 : 1 ≤ days ∧ days ≤ 180
    · cases env with
      | raise m =>
        left
        have hres : (list_recent_emails_tool days fn (ListEnv.raise m) c0).1 =
            "Error retrieving email titles: " ++ m := by
          unfold list_recent_emails_tool
          rw [if_neg (not_not_intro h1)]
        rw [hres]
        exact strStartsWith_append_left _ _ _ (by decide)
      | ok ff emails =>
        by_cases h2 : fn.isSome ∧ ¬ff
        · left
          have hres : (list_recent_emails_tool days fn (ListEnv.ok ff emails) c0).1 =
              "Error: Folder \x27" ++ fn.getD "" ++ "\x27 not found" := by
            unfold list_recent_emails_tool
            rw [if_neg (not_not_intro h1)]
            dsimp only
            rw [if_pos h2]
          rw [hres]
          exact strStartsWith_append_left _ _ _
            (strStartsWith_append_left _ _ _ (by decide))
        · refine Or.inr ⟨h1, ff, emails, rfl, fun hs => ?_⟩
          by_cases hf : ff = true
          · exact hf
          · exact absurd ⟨hs, fun h => hf h⟩ h2
    · left
      have hres : (list_recent_emails_tool days fn env c0).1 =
          "Error: \x27days\x27 must be an integer between 1 and 180" := by
        unfold list_recent_emails_tool
        rw [if_pos h1]
      rw [hres]; decide
  · -- search_emails
    intro term days fn env c0
    by_cases h0 : term = ""
    · left
      have hres : (search_emails_tool term days fn env c0).1 =
          "Error: Please provide a search term" := by
        unfold search_emails_tool
        rw [if_pos h0]
      rw [hres]; decide
    · by_cases h1 : 1 ≤ days ∧ days ≤ 180
      · cases env with
        | raise m =>
          left
          have hres : (search_emails_tool term days fn (ListEnv.raise m) c0).1 =
              "Error searching emails: " ++ m := by
            unfold search_emails_tool
            rw [if_neg h0, if_neg (not_not_intro h1)]
          rw [hres]
          exact strStartsWith_append_left _ _ _ (by decide)
        | ok ff emails =>
          by_cases h2 : fn.isSome ∧ ¬ff
          · left
            have hres : (search_emails_tool term days fn (ListEnv.ok ff emails) c0).1 =
                "Error: Folder \x27" ++ fn.getD "" ++ "\x27 not found" := by
              unfold search_emails_tool
              rw [if_neg h0, if_neg (not_not_intro h1)]
              dsimp only
              rw [if_pos h2]
            rw [hres]
            exact strStartsWith_append_left _ _ _
              (strStartsWith_append_left _ _ _ (by decide))
          · refine Or.inr ⟨h0, h1, ff, emails, rfl, fun hs => ?_⟩
            by_cases hf : ff = true
            · exact hf
            · exact absurd ⟨hs, fun h => hf h⟩ h2
      · left
        have hres : (search_emails_tool term days fn env c0).1 =
            "Error: \x27days\x27 must be an integer between 1 and 180" := by
          unfold search_emails_tool
          rw [if_neg h0, if_pos h1]
        rw [hres]; decide
  · -- count_unread_emails
    intro fn env
    cases env with
    | raise m =>
      left
      exact strStartsWith_append_left _ _ _ (by decide)
    | ok ff cnt =>
      cases fn with
      | none => exact Or.inr ⟨ff, cnt, rfl, fun hs => by simp at hs⟩
      | some name =>
        by_cases hf : ff = true
        · exact Or.inr ⟨ff, cnt, rfl, fun _ => hf⟩
        · left
          have hres : count_unread_emails_tool (some name) (CountEnv.ok ff cnt) =
              "Error: Folder \x27" ++ name ++ "\x27 not found" := by
            unfold count_unread_emails_tool
            dsimp only
            rw [if_pos hf]
          rw [hres]
          exact strStartsWith_append_left _ _ _
            (strStartsWith_append_left _ _ _ (by decide))
  · -- get_email_by_number
    intro cache n env
    cases hc : cache.isEmpty with
    | true =>
      left
      have hres : get_email_by_number_tool cache n env =
          "Error: No emails have been listed yet. Please use list_recent_emails, search_emails, or prioritize_inbox first." := by
        unfold get_email_by_number_tool
        rw [if_pos hc]
      rw [hres]; decide
    | false =>
      cases hl : cacheLookup cache n with
      | none =>
        left
        have hres : get_email_by_number_tool cache n env =
            "Error: Email #" ++ toString n ++ " not found in the current listing. Please run a listing tool again." := by
          unfold get_email_by_number_tool
          rw [if_neg (by simp [hc]), hl]
        rw [hres]
        exact strStartsWith_append_left _ _ _
          (strStartsWith_append_left _ _ _ (by decide))
      | some d =>
        cases env with
        | raise m =>
          left
          have hres : get_email_by_number_tool cache n (GetEnv.raise m) =
              "Error retrieving email details: " ++ m := by
            unfold get_email_by_number_tool
            rw [if_neg (by simp [hc]), hl]
          rw [hres]
          exact strStartsWith_append_left _ _ _ (by decide)
        | itemMissing =>
          left
          have hres : get_email_by_number_tool cache n GetEnv.itemMissing =
              "Error: Email #" ++ toString n ++ " could not be retrieved from Outlook." := by
            unfold get_email_by_number_tool
            rw [if_neg (by simp [hc]), hl]
          rw [hres]
          exact strStartsWith_append_left _ _ _
            (strStartsWith_append_left _ _ _ (by decide))
        | ok atts => exact Or.inr ⟨rfl, d, rfl, atts, rfl⟩
  · -- generate_morning_briefing
    intro d f env
    by_cases h1 : 1 ≤ d ∧ d ≤ 14
    · by_cases h2 : f < 1
      · left
        have hres : generate_morning_briefing_tool d f env =
            "Error: \x27follow_up_days\x27 must be a positive integer." := by
          unfold generate_morning_briefing_tool
          rw [if_neg (not_not_intro h1), if_pos h2]
        rw [hres]; decide
      · cases env with
        | raise m =>
          refine Or.inr (Or.inl ⟨m, rfl, h1, by omega, ?_⟩)
          unfold generate_morning_briefing_tool
          rw [if_neg (not_not_intro h1), if_neg h2]
        | ok myEmail payload =>
          cases myEmail with
          | none =>
            left
            have hres : generate_morning_briefing_tool d f (BriefEnv.ok none payload) =
                "Error: Could not determine your email address. Cannot analyze conversations." := by
              unfold generate_morning_briefing_tool
              rw [if_neg (not_not_intro h1), if_neg h2]
            rw [hres]; decide
          | some my => exact Or.inr (Or.inr ⟨h1, by omega, my, payload, rfl⟩)
    · left
      have hres : generate_morning_briefing_tool d f env =
          "Error: \x27days_to_scan\x27 must be an integer between 1 and 14." := by
        unfold generate_morning_briefing_tool
        rw [if_pos h1]
      rw [hres]; decide
  · -- get_actionable_emails
    intro d l env c0
    by_cases h1 : 1 ≤ d ∧ d ≤ 60
    · by_cases h2 : l < 1
      · left
        have hres : (get_actionable_emails_tool d l env c0).1 =
            "Error: \x27limit_per_category\x27 must be a positive integer." := by
          unfold get_actionable_emails_tool
          rw [if_neg (not_not_intro h1), if_pos h2]
        rw [hres]; decide
      · cases env with
        | raise m =>
          left
          have hres : (get_actionable_emails_tool d l (ActionEnv.raise m) c0).1 =
              "Error analyzing actionable emails: " ++ m := by
            unfold get_actionable_emails_tool
            rw [if_neg (not_not_intro h1), if_neg h2]
          rw [hres]
          exact strStartsWith_append_left _ _ _ (by decide)
        | ok myEmail mgr now items =>
          cases myEmail with
          | none =>
            left
            have hres : (get_actionable_emails_tool d l
                (ActionEnv.ok none mgr now items) c0).1 =
                "Error: Could not determine your email address. Cannot analyze conversations." := by
              unfold get_actionable_emails_tool
              rw [if_neg (not_not_intro h1), if_neg h2]
            rw [hres]; decide
          | some my =>
            rcases hr : runReport l.toNat (analyzeThreads my mgr now
                ((groupConversations items).map
                  (fun p => (p.1, sortThread get_item_datetime_for_sorting p.2))))
              with ⟨ls, c, n1, err⟩
            cases err with
            | some m =>
              left
              have hres : (get_actionable_emails_tool d l
                  (ActionEnv.ok (some my) mgr now items) c0).1 =
                  "Error analyzing actionable emails: " ++ m := by
                unfold get_actionable_emails_tool
                rw [if_neg (not_not_intro h1), if_neg h2]
                dsimp only
                rw [hr]
              rw [hres]
              exact strStartsWith_append_left _ _ _ (by decide)
            | none =>
              refine Or.inr ⟨h1, by omega, my, mgr, now, items, rfl, ?_⟩
              rw [hr]
    · left
      have hres : (get_actionable_emails_tool d l env c0).1 =
          "Error: \x27days_to_scan\x27 must be an integer between 1 and 60." := by
        unfold get_actionable_emails_tool
        rw [if_pos h1]
      rw [hres]; decide
  · -- inbox_load_and_mood_estimator
    intro d env
    by_cases h1 : 1 ≤ d ∧ d ≤ 60
    · cases env with
      | raise m =>
        left
        have hres : inbox_load_and_mood_estimator_tool d (MoodEnv.raise m) =
            "Error calculating inbox load: " ++ m := by
          unfold inbox_load_and_mood_estimator_tool
          rw [if_neg (not_not_intro h1)]
        rw [hres]
        exact strStartsWith_append_left _ _ _ (by decide)
      | ok myEmail items =>
        cases myEmail with
        | none =>
          left
          have hres : inbox_load_and_mood_estimator_tool d (MoodEnv.ok none items) =
              "Error: Could not determine your email address. Cannot estimate inbox load." := by
            unfold inbox_load_and_mood_estimator_tool
            rw [if_neg (not_not_intro h1)]
          rw [hres]; decide
        | some my => exact Or.inr ⟨h1, my, items, rfl⟩
    · left
      have hres : inbox_load_and_mood_estimator_tool d env =
          "Error: \x27days_to_scan\x27 must be an integer between 1 and 60." := by
        unfold inbox_load_and_mood_estimator_tool
        rw [if_pos h1]
      rw [hres]; decide
  · -- reply_to_email_by_number
    intro cache n txt env
    cases hc : cache.isEmpty with
    | true =>
      left
      have hres : reply_to_email_by_number_tool cache n txt env =
          "Error: No emails have been listed yet. Please use list_recent_emails, search_emails, or prioritize_inbox first." := by
        unfold reply_to_email_by_number_tool
        rw [if_pos hc]
      rw [hres]; decide
    | false =>
      cases hl : cacheLookup cache n with
      | none =>
        left
        have hres : reply_to_email_by_number_tool cache n txt env =
            "Error: Email #" ++ toString n ++ " not found in the current listing." := by
          unfold reply_to_email_by_number_tool
          rw [if_neg (by simp [hc]), hl]
        rw [hres]
        exact strStartsWith_append_left _ _ _
          (strStartsWith_append_left _ _ _ (by decide))
      | some d =>
        cases hs : d.is_sent_item with
        | true =>
          left
          have hres : reply_to_email_by_number_tool cache n txt env =
              "Error: Email #" ++ toString n ++ " is a sent item. You cannot reply to it." := by
            unfold reply_to_email_by_number_tool
            rw [if_neg (by simp [hc]), hl]
            dsimp only
            rw [if_pos hs]
          rw [hres]
          exact strStartsWith_append_left _ _ _
            (strStartsWith_append_left _ _ _ (by decide))
        | false =>
          cases env with
          | raise m =>
            left
            have hres : reply_to_email_by_number_tool cache n txt (ReplyEnv.raise m) =
                "Error replying to email: " ++ m := by
              unfold reply_to_email_by_number_tool
              rw [if_neg (by simp [hc]), hl]
              dsimp only
              rw [if_neg (by simp [hs])]
            rw [hres]
            exact strStartsWith_append_left _ _ _ (by decide)
          | itemMissing =>
            left
            have hres : reply_to_email_by_number_tool cache n txt ReplyEnv.itemMissing =
                "Error: Email #" ++ toString n ++ " could not be retrieved from Outlook." := by
              unfold reply_to_email_by_number_tool
              rw [if_neg (by simp [hc]), hl]
              dsimp only
              rw [if_neg (by simp [hs])]
            rw [hres]
            exact strStartsWith_append_left _ _ _
              (strStartsWith_append_left _ _ _ (by decide))
          | ok sn se => exact Or.inr ⟨rfl, d, rfl, hs, sn, se, rfl⟩
  · -- move_email_by_number
    intro cache n fol env
    cases hc : cache.isEmpty with
    | true =>
      left
      have hres : (move_email_by_number_tool cache n fol env).result =
          "Error: No emails have been listed yet. Please use list_recent_emails or search_emails first." := by
        unfold move_email_by_number_tool
        rw [if_pos hc]
      rw [hres]; decide
    | false =>
      cases hl : cacheLookup cache n with
      | none =>
        left
        have hres : (move_email_by_number_tool cache n fol env).result =
            "Error: Email #" ++ toString n ++ " not found in the current listing." := by
          unfold move_email_by_number_tool
          rw [if_neg (by simp [hc]), hl]
        rw [hres]
        exact strStartsWith_append_left _ _ _
          (strStartsWith_append_left _ _ _ (by decide))
      | some d =>
        by_cases hf : fol = ""
        · left
          have hres : (move_email_by_number_tool cache n fol env).result =
              "Error: You must provide a destination folder name." := by
            unfold move_email_by_number_tool
            rw [if_neg (by simp [hc]), hl]
            dsimp only
            rw [if_pos hf]
          rw [hres]; decide
        · cases env with
          | raise m =>
            left
            have hres : (move_email_by_number_tool cache n fol (MoveEnv.raise m)).result =
                "Error moving email: " ++ m := by
              unfold move_email_by_number_tool
              rw [if_neg (by simp [hc]), hl]
              dsimp only
              rw [if_neg hf]
            rw [hres]
            exact strStartsWith_append_left _ _ _ (by decide)
          | itemMissing =>
            left
            have hres : (move_email_by_number_tool cache n fol MoveEnv.itemMissing).result =
                "Error: Email #" ++ toString n ++ " could no longer be found in Outlook. It may have been moved or deleted." := by
              unfold move_email_by_number_tool
              rw [if_neg (by simp [hc]), hl]
              dsimp only
              rw [if_neg hf]
            rw [hres]
            exact strStartsWith_append_left _ _ _
              (strStartsWith_append_left _ _ _ (by decide))
          | folderMissing =>
            left
            have hres : (move_email_by_number_tool cache n fol MoveEnv.folderMissing).result =
                "Error: Destination folder \x27" ++ fol ++ "\x27 could not be found. Use the list_folders tool to see available folders." := by
              unfold move_email_by_number_tool
              rw [if_neg (by simp [hc]), hl]
              dsimp only
              rw [if_neg hf]
            rw [hres]
            exact strStartsWith_append_left _ _ _
              (strStartsWith_append_left _ _ _ (by decide))
          | ok => exact Or.inr ⟨rfl, ⟨d, rfl⟩, hf, rfl⟩
  · -- compose_email
    intro r s b cc env
    cases env with
    | raise m =>
      left
      exact strStartsWith_append_left _ _ _ (by decide)
    | ok => exact Or.inr rfl

theorem entriesOf_append (n : Nat) (xs ys : List (RawItem × String))
    (hx : allOk xs) :
    entriesOf n (xs ++ ys) = entriesOf n xs ++ entriesOf (n + xs.length) ys := by
  induction xs generalizing n with
  | nil => simp [entriesOf]
  | cons p rest ih =>
    obtain ⟨e, r⟩ := p
    obtain ⟨d, hd⟩ := hx (e, r) (List.mem_cons_self _ _)
    have hrest : allOk rest := fun q hq => hx q (List.mem_cons_of_mem _ hq)
    simp only [List.cons_append, entriesOf, hd, List.append_eq]
    rw [ih (n + 1) hrest]
    simp only [List.length_cons]
    have harith : n + 1 + rest.length = n + (rest.length + 1) := by omega
    rw [harith]

theorem entriesOf_fst (n : Nat) (items : List (RawItem × String))
    (h : allOk items) :
    (entriesOf n items).map Prod.fst = List.range' n items.length := by
  induction items generalizing n with
  | nil => simp [entriesOf]
  | cons p rest ih =>
    obtain ⟨e, r⟩ := p
    obtain ⟨d, hd⟩ := h (e, r) (List.mem_cons_self _ _)
    have hrest : allOk rest := fun q hq => h q (List.mem_cons_of_mem _ hq)
    simp only [entriesOf, hd, List.map_cons, List.length_cons]
    rw [ih (n + 1) hrest]
    rfl

theorem entriesOf_get (n : Nat) (items : List (RawItem × String))
    (h : allOk items) :
    ∀ i (hi : i < items.length), ∃ d,
      format_email (items.get ⟨i, hi⟩).1 = Except.ok d ∧
      (entriesOf n items).get? i = some (n + i, d) := by
  induction items generalizing n with
  | nil => intro i hi; simp at hi
  | cons p rest ih =>
    intro i hi
    obtain ⟨e, r⟩ := p
    obtain ⟨d, hd⟩ := h (e, r) (List.mem_cons_self _ _)
    have hrest : allOk rest := fun q hq => h q (List.mem_cons_of_mem _ hq)
    cases i with
    | zero => exact ⟨d, hd, by simp [entriesOf, hd]⟩
    | succ j =>
      obtain ⟨d2, hfd2, hg⟩ := ih (n + 1) hrest j (by simpa using hi)
      refine ⟨d2, hfd2, ?_⟩
      simp only [entriesOf, hd, List.get?_cons_succ]
      rw [hg]
      have harith : n + 1 + j = n + (j + 1) := by omega
      rw [harith]

theorem processCategory_ok (items : List (RawItem × String)) :
    ∀ (accL : List String) (accC : Cache) (n0 : Nat),
    (processCategory accL accC n0 items).2.2.2 = none →
    (processCategory accL accC n0 items).2.1 = accC ++ entriesOf n0 items ∧
    (processCategory accL accC n0 items).2.2.1 = n0 + items.length ∧
    allOk items := by
  induction items with
  | nil =>
    intro accL accC n0 _
    refine ⟨by simp [processCategory, entriesOf], by simp [processCategory], ?_⟩
    intro q hq
    simp at hq
  | cons p rest ih =>
    intro accL accC n0 h
    obtain ⟨e, r⟩ := p
    cases hd : format_email e with
    | error m =>
      exfalso
      unfold processCategory at h
      rw [hd] at h
      simp at h
    | ok d =>
      unfold processCategory at h ⊢
      rw [hd] at h ⊢
      obtain ⟨h1, h2, h3⟩ := ih _ _ _ h
      refine ⟨?_, ?_, ?_⟩
      · rw [h1]
        simp [entriesOf, hd, List.append_assoc]
      · rw [h2]
        simp only [List.length_cons]
        omega
      · intro q hq
        rcases List.mem_cons.mp hq with hq | hq
        · cases hq; exact ⟨d, hd⟩
        · exact h3 q hq

theorem runCategories_ok (cats : List (List (RawItem × String) × String)) :
    ∀ (accL : List String) (accC : Cache) (n : Nat),
    (runCategories accL accC n cats).2.2.2 = none →
    (runCategories accL accC n cats).2.1 = accC ++ entriesOf n (flatItems cats) ∧
    allOk (flatItems cats) := by
  induction cats with
  | nil =>
    intro accL accC n _
    refine ⟨by simp [runCategories, flatItems, entriesOf], ?_⟩
    intro q hq
    simp [flatItems] at hq
  | cons c rest ih =>
    intro accL accC n h
    obtain ⟨items, title⟩ := c
    have hflat : flatItems ((items, title) :: rest) = items ++ flatItems rest := by
      simp [flatItems]
    cases he : items.isEmpty with
    | true =>
      have hit : items = [] := List.isEmpty_iff.mp he
      unfold runCategories at h ⊢
      rw [if_pos he] at h ⊢
      obtain ⟨ih1, ih2⟩ := ih accL accC n h
      subst hit
      refine ⟨by rw [ih1]; simp [hflat], ?_⟩
      rw [hflat]
      simpa using ih2
    | false =>
      unfold runCategories at h ⊢
      rw [if_neg (by simp [he])] at h ⊢
      rcases hp : processCategory (accL ++ [categoryHeader title items.length])
          accC n items with ⟨ls, c2, n1, err⟩
      rw [hp] at h
      cases err with
      | some m => simp at h
      | none =>
        have hq := processCategory_ok items
          (accL ++ [categoryHeader title items.length]) accC n (by rw [hp])
        rw [hp] at hq
        dsimp only at hq ⊢
        obtain ⟨hc2, hn1, hall⟩ := hq
        obtain ⟨ih1, ih2⟩ := ih ls c2 n1 h
        constructor
        · rw [ih1, hc2, hn1, hflat, entriesOf_append n items (flatItems rest) hall]
          simp [List.append_assoc]
        · rw [hflat]
          intro q hq2
          rcases List.mem_append.mp hq2 with hq2 | hq2
          · exact hall q hq2
          · exact ih2 q hq2

/-- C10: on every successful run of `get_actionable_emails`' report-building
stage, each category section holds at most `limit` entries, the displayed
email numbers are exactly `1, 2, ...` in the fixed category order
(unread-priority, awaiting-reply, pending-follow-up), and the cache
afterwards maps exactly those numbers to the formatted displayed emails. -/
theorem C10_report_numbering_cache (limit : Nat) (res : ActionResults)
    (h : (runReport limit res).2.2.2 = none) :
    (res.unread_priority.take limit).length ≤ limit ∧
    (res.awaiting_reply.take limit).length ≤ limit ∧
    (res.pending_followup.take limit).length ≤ limit ∧
    ((runReport limit res).2.1).map Prod.fst =
      List.range' 1 (res.unread_priority.take limit ++
        res.awaiting_reply.take limit ++ res.pending_followup.take limit).length ∧
    (∀ i (hi : i < (res.unread_priority.take limit ++
        res.awaiting_reply.take limit ++ res.pending_followup.take limit).length),
      ∃ d, format_email ((res.unread_priority.take limit ++
          res.awaiting_reply.take limit ++
          res.pending_followup.take limit).get ⟨i, hi⟩).1 = Except.ok d ∧
        ((runReport limit res).2.1).get? i = some (1 + i, d)) := by
  have hflat : flatItems
      [(res.unread_priority.take limit, "UNREAD PRIORITY EMAILS"),
       (res.awaiting_reply.take limit, "AWAITING YOUR REPLY"),
       (res.pending_followup.take limit, "PENDING YOUR FOLLOW-UP")] =
      res.unread_priority.take limit ++ res.awaiting_reply.take limit ++
        res.pending_followup.take limit := by
    simp [flatItems, List.append_assoc]
  obtain ⟨hcache, hall⟩ := runCategories_ok
    [(res.unread_priority.take limit, "UNREAD PRIORITY EMAILS"),
     (res.awaiting_reply.take limit, "AWAITING YOUR REPLY"),
     (res.pending_followup.take limit, "PENDING YOUR FOLLOW-UP")] [] [] 1 h
  rw [hflat] at hcache hall
  have hcache' : (runReport limit res).2.1 =
      entriesOf 1 (res.unread_priority.take limit ++
        res.awaiting_reply.take limit ++ res.pending_followup.take limit) := by
    simpa using hcache
  refine ⟨List.length_take_le _ _, List.length_take_le _ _,
    List.length_take_le _ _, ?_, ?_⟩
  · rw [hcache']
    exact entriesOf_fst 1 _ hall
  · intro i hi
    obtain ⟨d, hfd, hg⟩ := entriesOf_get 1 _ hall i hi
    exact ⟨d, hfd, by rw [hcache']; exact hg⟩

/-- Witness for C10 at a concrete run: one unread-priority thread, limit 5 —
ordinal 1 maps to the formatted email. -/
theorem C10_report_numbering_cache_witness :
    ∃ d, format_email nbItem = Except.ok d ∧
      ((runReport 5 sampleRes).2.1).get? 0 = some (1 + 0, d) :=
  (C10_report_numbering_cache 5 sampleRes (by decide)).2.2.2.2 0 (by decide)

end OutlookMCP
